import Mathlib

/-!
Verification of the authentication core of the Freelancer Feedback Assistant
backend (FastAPI application under `backend/app`).

The embedding models, from the source:
* `app/core/security.py` — password hashing/verification (bcrypt wrappers),
  JWT issuance/decoding (`python-jose` wrappers), token-type checking;
* `app/api/deps.py` — per-request identity resolution (`get_current_user`);
* `app/api/v1/endpoints/auth.py` — the register / login / refresh endpoints;
* `app/schemas/user.py` — the `UserCreate` password validation and the
  `UserResponse` response schema;
* `app/core/config.py` — the settings relevant to the auth core.

External libraries (bcrypt, python-jose) are not part of the repository; they
are modelled by their documented input/output contracts: bcrypt as a structure
of functions with its documented modular-crypt output format and round-trip
property, and a JWT as a transparent value carrying its payload and signing
key, with decoding checking the key and the expiry.
-/

set_option maxHeartbeats 1000000

deriving instance DecidableEq for Except

namespace AuthCore

/-! ### UTF-8 encoding

Model of Python's `str.encode('utf-8')`, used because both password functions
truncate their input to the first 72 bytes of its UTF-8 encoding. -/

/-- The UTF-8 encoding of a single character (1–4 bytes by codepoint range). -/
def charUtf8 (c : Char) : List Nat :=
  let n := c.toNat
  if n < 128 then [n]
  else if n < 2048 then [192 + n / 64, 128 + n % 64]
  else if n < 65536 then [224 + n / 4096, 128 + n / 64 % 64, 128 + n % 64]
  else [240 + n / 262144, 128 + n / 4096 % 64, 128 + n / 64 % 64, 128 + n % 64]

/-- The UTF-8 encoding of a string, as a byte list (Python `s.encode('utf-8')`). -/
def utf8Bytes (s : String) : List Nat := (s.data.map charUtf8).flatten

/-! ### bcrypt

`app/core/security.py` calls `bcrypt.gensalt()`, `bcrypt.hashpw` and
`bcrypt.checkpw`. The bcrypt library is external to the repository, so it is
modelled by its documented contract. -/

/-- A bcrypt salt: the cost factor and the 22 salt characters. -/
structure BSalt where
  cost : Nat
  chars : String
deriving DecidableEq

/-- `bcrypt.gensalt()` as called by the source — with no `rounds` argument, so
the library's documented default cost of 12 is used. The 22 random salt
characters are taken as a parameter (the library draws them from the OS RNG). -/
def bcrypt_gensalt (entropy : String) : BSalt := ⟨12, entropy⟩

/-- A well-formed bcrypt salt: cost in the documented range (at most 31) and
22 ASCII salt characters, as `bcrypt.gensalt` produces. -/
def saltOk (s : BSalt) : Prop :=
  s.cost ≤ 31 ∧ s.chars.length = 22 ∧ ∀ c ∈ s.chars.data, c.toNat < 128

instance (s : BSalt) : Decidable (saltOk s) := by
  unfold saltOk; infer_instance

/-- The two-digit cost field of a bcrypt hash string (bcrypt always zero-pads
the cost to two digits). -/
def twoDigits (n : Nat) : String :=
  String.mk [Char.ofNat (48 + n / 10), Char.ofNat (48 + n % 10)]

/-- Interface and documented contract of the external bcrypt library.

* `hashpw b s` — the modular-crypt-format hash of byte string `b` under salt
  `s`; documented to be the ASCII string
  `"$2b$" ++ cost ++ "$" ++ salt ++ digest`, where `digest` is the base64
  encoding of repeated Blowfish encryptions of a fixed constant keyed by `b`
  and `s` (modelled as the abstract function `digest`).
* `checkpw b h` — true when `h` is the hash of `b` under the salt embedded in
  `h` (constant-time comparison in the real library).
* `checkpw_hashpw` — the documented round-trip property.
* `hashpw_ne_plain` — the hash string is never the plaintext it hashes: the
  output is a salt-prefixed encoding of a Blowfish encryption of a fixed
  magic constant, not an echo of the input. (The concrete instance
  `toyBcrypt` below shows this contract is satisfiable.)

The hash is an ASCII string, so the `.decode('utf-8')` / `.encode('utf-8')`
steps the source applies to it are lossless and hashes are modelled as
`String` directly. -/
structure BcryptLib where
  digest : List Nat → BSalt → String
  hashpw : List Nat → BSalt → String
  checkpw : List Nat → String → Bool
  hashpw_format : ∀ b s, saltOk s →
    hashpw b s = "$2b$" ++ twoDigits s.cost ++ "$" ++ s.chars ++ digest b s
  checkpw_hashpw : ∀ b s, saltOk s → checkpw b (hashpw b s) = true
  hashpw_ne_plain : ∀ (p : String) (s : BSalt), saltOk s →
    hashpw ((utf8Bytes p).take 72) s ≠ p

/-! ### Password hashing wrappers (`app/core/security.py`) -/

/-- `verify_password(plain_password, hashed_password)`: truncates the password
to its first 72 UTF-8 bytes and calls `bcrypt.checkpw` against the stored
hash. -/
def verify_password (B : BcryptLib) (plain_password : String)
    (hashed_password : String) : Bool :=
  B.checkpw ((utf8Bytes plain_password).take 72) hashed_password

/-- `get_password_hash(password)`: truncates the password to its first 72
UTF-8 bytes, generates a fresh salt with `bcrypt.gensalt()` (no `rounds`
argument) and returns the bcrypt hash. `entropy` stands for the random salt
characters drawn inside `gensalt`. -/
def get_password_hash (B : BcryptLib) (entropy : String) (password : String) :
    String :=
  B.hashpw ((utf8Bytes password).take 72) (bcrypt_gensalt entropy)

/-! ### Application settings (`app/core/config.py`)

Only the settings the auth core reads. The source defaults are
`JWT_ALGORITHM = "HS256"`, `ACCESS_TOKEN_EXPIRE_MINUTES = 30`,
`REFRESH_TOKEN_EXPIRE_DAYS = 7`, `BCRYPT_ROUNDS = 12`. Time is modelled in
seconds. -/

structure Settings where
  SECRET_KEY : String
  ACCESS_TOKEN_EXPIRE_MINUTES : Nat
  REFRESH_TOKEN_EXPIRE_DAYS : Nat
  BCRYPT_ROUNDS : Nat
deriving DecidableEq

/-! ### JWT (`python-jose` wrappers in `app/core/security.py`)

A JWT is modelled transparently: either a malformed string or a signed claim
set tagged with the key it was signed with. `jose.jwt.decode` succeeds exactly
when the key matches and the token is not expired (per the spec's clock
semantics, a token is rejected when `now > exp`, no leeway). -/

/-- The claim set of a token produced by this application: `sub`, `email`
(absent on refresh tokens), `exp`, `iat`, `type`. Optional fields model
Python's `payload.get(...)` returning `None` when a claim is absent. -/
structure JwtPayload where
  sub : Option String
  email : Option String
  exp : Nat
  iat : Nat
  type : Option String
deriving DecidableEq

/-- A compact token: malformed text, or a payload signed under a key. -/
inductive Jwt where
  | malformed (raw : String)
  | signed (payload : JwtPayload) (key : String)
deriving DecidableEq

/-- `jose.jwt.encode(claims, key, algorithm)`. -/
def jwt_encode (payload : JwtPayload) (key : String) : Jwt := .signed payload key

/-- `jose.jwt.decode(token, key, algorithms)`: raises a `JWTError` when the
token is malformed or the signature does not verify, an
`ExpiredSignatureError` (a `JWTError` subclass) when `now > exp`. -/
def jose_decode (t : Jwt) (key : String) (now : Nat) : Except String JwtPayload :=
  match t with
  | .malformed _ => .error "JWTError"
  | .signed p k =>
    if k ≠ key then .error "JWTError"
    else if now > p.exp then .error "ExpiredSignatureError"
    else .ok p

/-- An HTTP error response (`fastapi.HTTPException`): status code, detail
string, and response headers. -/
structure HTTPError where
  statusCode : Nat
  detail : String
  headers : List (String × String)
deriving DecidableEq

/-- The rejection `decode_token` raises for any invalid token:
`401, "Could not validate credentials"` with a `WWW-Authenticate: Bearer`
header. -/
def credentialsError : HTTPError :=
  ⟨401, "Could not validate credentials", [("WWW-Authenticate", "Bearer")]⟩

/-- `decode_token(token)`: decodes and verifies the token, converting every
`JWTError` into the single `credentialsError` rejection. It never inspects
the `type` claim. -/
def decode_token (st : Settings) (t : Jwt) (now : Nat) :
    Except HTTPError JwtPayload :=
  match jose_decode t st.SECRET_KEY now with
  | .ok p => .ok p
  | .error _ => .error credentialsError

/-- The data dict passed to the token creation functions by this application:
a `sub` and possibly an `email` entry. -/
structure JwtData where
  sub : Option String
  email : Option String
deriving DecidableEq

/-- Python's rendering of an optional claim in the f-string of
`verify_token_type` (`None` for an absent claim). -/
def optClaimStr : Option String → String
  | none => "None"
  | some s => s

/-- `create_access_token(data, expires_delta)`: copies `data`, then sets
`exp` (now + delta, defaulting to `ACCESS_TOKEN_EXPIRE_MINUTES` minutes),
`iat = now` and `type = "access"` (the dict update overwrites any prior
values), and signs with the server secret. -/
def create_access_token (st : Settings) (data : JwtData)
    (expires_delta : Option Nat) (now : Nat) : Jwt :=
  let expire := match expires_delta with
    | some d => now + d
    | none => now + st.ACCESS_TOKEN_EXPIRE_MINUTES * 60
  jwt_encode ⟨data.sub, data.email, expire, now, some "access"⟩ st.SECRET_KEY

/-- `create_refresh_token(data, expires_delta)`: same, with
`REFRESH_TOKEN_EXPIRE_DAYS` days default lifetime and `type = "refresh"`. -/
def create_refresh_token (st : Settings) (data : JwtData)
    (expires_delta : Option Nat) (now : Nat) : Jwt :=
  let expire := match expires_delta with
    | some d => now + d
    | none => now + st.REFRESH_TOKEN_EXPIRE_DAYS * 86400
  jwt_encode ⟨data.sub, data.email, expire, now, some "refresh"⟩ st.SECRET_KEY

/-- `verify_token_type(payload, expected_type)`: raises 401 when
`payload.get("type") != expected_type`, otherwise returns normally
(modelled as `some error` / `none`). -/
def verify_token_type (p : JwtPayload) (expected : String) : Option HTTPError :=
  if p.type ≠ some expected then
    some ⟨401,
      "Invalid token type. Expected " ++ expected ++ ", got " ++
        optClaimStr p.type,
      [("WWW-Authenticate", "Bearer")]⟩
  else none

/-- The response of `create_token_pair`: the dict with `access_token`,
`refresh_token` and `token_type: "bearer"` (schema `Token`). -/
structure TokenPairResp where
  access_token : Jwt
  refresh_token : Jwt
  token_type : String
deriving DecidableEq

/-- `create_token_pair(user_id, email)`: an access token with
`{sub: user_id, email}` and a refresh token with `{sub: user_id}` only. -/
def create_token_pair (st : Settings) (user_id : String) (email : String)
    (now : Nat) : TokenPairResp :=
  ⟨create_access_token st ⟨some user_id, some email⟩ none now,
   create_refresh_token st ⟨some user_id, none⟩ none now,
   "bearer"⟩

/-! ### UUIDs

`app/api/deps.py` parses `claims.sub` with Python's `uuid.UUID(...)`, which
normalises its input (dropping `urn:` / `uuid:` markers, surrounding braces
and all hyphens) and then requires 32 hexadecimal digits. The embedding
mirrors that normalisation; the final `int(hex, 16)` conversion is modelled
for plain hex-digit strings (the only form the application itself produces). -/

/-- Whether `c` is a hexadecimal digit (`int(_, 16)` accepts both cases). -/
def isHexDigit (c : Char) : Bool :=
  c.isDigit || ('a' ≤ c && c ≤ 'f') || ('A' ≤ c && c ≤ 'F')

/-- The value of a hexadecimal digit. -/
def hexVal (c : Char) : Nat :=
  if c.isDigit then c.toNat - 48
  else if 'a' ≤ c && c ≤ 'f' then c.toNat - 87
  else c.toNat - 55

/-- Whether `pat` occurs at the start of `l`. -/
def matchesAt (pat l : List Char) : Bool := l.take pat.length == pat

/-- Python `str.replace(pat, '')`: removes every (leftmost, non-overlapping)
occurrence of `pat`. -/
def removeAll (pat : List Char) : List Char → List Char
  | [] => []
  | c :: rest =>
    if matchesAt pat (c :: rest) ∧ pat ≠ [] then
      removeAll pat (rest.drop (pat.length - 1))
    else c :: removeAll pat rest
termination_by l => l.length
decreasing_by
  · simp only [List.length_cons, List.length_drop]; omega
  · simp only [List.length_cons]; omega

/-- Python `str.strip('{}')`: drops leading and trailing brace characters. -/
def stripBraces (l : List Char) : List Char :=
  let isBrace := fun c => c = Char.ofNat 123 ∨ c = Char.ofNat 125
  ((l.dropWhile isBrace).reverse.dropWhile isBrace).reverse

/-- `uuid.UUID(s)`: normalise, require 32 hex digits, read as a 128-bit
value; `none` models the `ValueError` raised on malformed input. -/
def parseUUID (s : String) : Option Nat :=
  let h := (stripBraces (removeAll "uuid:".data
    (removeAll "urn:".data s.data))).filter (fun c => c ≠ '-')
  if h.length = 32 ∧ h.all isHexDigit then
    some (h.foldl (fun a c => a * 16 + hexVal c) 0)
  else none

/-- The lowercase hex digit for a value below 16. -/
def hexDigitChar (n : Nat) : Char :=
  if n < 10 then Char.ofNat (48 + n) else Char.ofNat (87 + n)

/-- `str(uuid)`: the canonical lowercase 8-4-4-4-12 hyphenated form of a
128-bit value. -/
def uuidStr (u : Nat) : String :=
  let h := (List.range 32).map (fun i => hexDigitChar (u / 16 ^ (31 - i) % 16))
  String.mk (h.take 8 ++ '-' ::
    ((h.drop 8).take 4 ++ '-' ::
      ((h.drop 12).take 4 ++ '-' ::
        ((h.drop 16).take 4 ++ '-' :: h.drop 20))))

/-! ### The user record

Modelled from the spec: the `User` SQLAlchemy model (`app/models/user.py`) is
not in the source tree; its fields are taken from the spec's Credential
Record (§3: `user_id`, `email`, `password_hash`, `is_active`) together with
every field the in-tree endpoints and the `UserResponse` schema access
(`full_name`, `is_verified`, `last_login`, `created_at`, `updated_at`).
`id` is the 128-bit UUID value. -/

structure User where
  id : Nat
  email : String
  full_name : Option String
  hashed_password : String
  is_active : Bool
  is_verified : Bool
  created_at : Nat
  updated_at : Nat
  last_login : Option Nat
deriving DecidableEq

/-- The database, modelled as the list of user rows;
`db.query(User).filter(cond).first()` is `List.find?`. -/
abbrev UserDb := List User

/-- `UserResponse` (`app/schemas/user.py`): the public projection of a user —
it has no password-hash field. -/
structure UserResponse where
  email : String
  full_name : Option String
  id : Nat
  is_active : Bool
  is_verified : Bool
  created_at : Nat
  updated_at : Nat
  last_login : Option Nat
deriving DecidableEq

/-- Serialisation of a `User` row through `response_model=UserResponse`. -/
def userResponseOf (u : User) : UserResponse :=
  ⟨u.email, u.full_name, u.id, u.is_active, u.is_verified,
   u.created_at, u.updated_at, u.last_login⟩

/-! ### Identity resolution (`app/api/deps.py:get_current_user`) -/

/-- Outcome of a failed request: an `HTTPException` response, or an unhandled
Python exception (a server error, named by its exception class). -/
inductive PyFailure where
  | http (e : HTTPError)
  | uncaught (exc : String)
deriving DecidableEq

/-- `get_current_user(db, credentials)` on a presented bearer token.

The `try` block catches only `(JWTError, ValueError)`; `decode_token` and
`verify_token_type` raise `HTTPException` (not a `JWTError`), which therefore
propagates unchanged. `UUID(payload.get("sub"))` raises `ValueError` on a
malformed string — caught and replaced by a bare
`401 "Could not validate credentials"` with no headers — but `TypeError` when
`sub` is absent (`UUID(None)`), which is not caught. -/
def get_current_user (st : Settings) (db : UserDb) (t : Jwt) (now : Nat) :
    Except PyFailure User :=
  match decode_token st t now with
  | .error e => .error (.http e)
  | .ok payload =>
    match verify_token_type payload "access" with
    | some e => .error (.http e)
    | none =>
      match payload.sub with
      | none => .error (.uncaught "TypeError")
      | some s =>
        match parseUUID s with
        | none => .error (.http ⟨401, "Could not validate credentials", []⟩)
        | some uid =>
          match db.find? (fun u => u.id == uid) with
          | none => .error (.http ⟨404, "User not found", []⟩)
          | some u =>
            if !u.is_active then .error (.http ⟨403, "Inactive user", []⟩)
            else .ok u

/-! ### Auth endpoints (`app/api/v1/endpoints/auth.py`) -/

/-- `400 "Email already registered"`. -/
def emailTakenError : HTTPError := ⟨400, "Email already registered", []⟩

/-- `401 "Incorrect email or password"` — the single error object raised both
for an unknown email and for a failed password check. -/
def incorrectCredentialsError : HTTPError :=
  ⟨401, "Incorrect email or password", [("WWW-Authenticate", "Bearer")]⟩

/-- `403 "Inactive user"`. -/
def inactiveUserError : HTTPError := ⟨403, "Inactive user", []⟩

/-- `401 "Invalid refresh token"` — raised by the refresh endpoint's
`except Exception` handler for every failure inside its `try` block. -/
def invalidRefreshError : HTTPError :=
  ⟨401, "Invalid refresh token", [("WWW-Authenticate", "Bearer")]⟩

/-- `401 "User not found or inactive"` (refresh endpoint). -/
def refreshUserError : HTTPError := ⟨401, "User not found or inactive", []⟩

/-- The validated `UserCreate` request body. -/
structure UserCreate where
  email : String
  full_name : Option String
  password : String
deriving DecidableEq

/-- `register(user_in, db)`: rejects with 400 when a row with exactly the
requested email exists (SQLAlchemy `filter(User.email == user_in.email)`,
an exact, case-sensitive string comparison); otherwise inserts a new user
with the bcrypt hash of the password, `is_active=True`, `is_verified=False`,
and returns it. `newId` and `now` stand for the row defaults (`uuid4()` id,
creation timestamps) the database assigns; `entropy` is the salt randomness
of `gensalt`. -/
def register (B : BcryptLib) (entropy : String) (newId : Nat) (now : Nat)
    (db : UserDb) (user_in : UserCreate) :
    Except HTTPError (UserDb × User) :=
  match db.find? (fun u => u.email == user_in.email) with
  | some _ => .error emailTakenError
  | none =>
    let user : User :=
      ⟨newId, user_in.email, user_in.full_name,
       get_password_hash B entropy user_in.password,
       true, false, now, now, none⟩
    .ok (db ++ [user], user)

/-- Update the first row matching `p` (the row `first()` returned and the
session then mutated and committed). -/
def updateFirst (p : User → Bool) (f : User → User) : UserDb → UserDb
  | [] => []
  | u :: rest => if p u then f u :: rest else u :: updateFirst p f rest

/-- `login(login_data, db)`: looks the user up by email; one shared
401 rejection when the user is missing **or** the password fails
verification; 403 when the user is inactive; otherwise writes
`last_login = now` and returns the token pair for `(str(user.id),
user.email)`. -/
def login (B : BcryptLib) (st : Settings) (db : UserDb)
    (email password : String) (now : Nat) :
    Except HTTPError (UserDb × TokenPairResp) :=
  match db.find? (fun u => u.email == email) with
  | none => .error incorrectCredentialsError
  | some u =>
    if !(verify_password B password u.hashed_password) then
      .error incorrectCredentialsError
    else if !u.is_active then
      .error inactiveUserError
    else
      .ok (updateFirst (fun v => v.email == email)
             (fun v => { v with last_login := some now }) db,
           create_token_pair st (uuidStr u.id) u.email now)

/-- `refresh_token(refresh_data, db)`: the `try` block decodes the token,
checks `type == "refresh"` and reads `sub`; its `except Exception` catches
**everything** raised there — including the `HTTPException`s of
`decode_token` and `verify_token_type` — and replaces it with the generic
`401 "Invalid refresh token"`. It then re-fetches the user
(`filter(User.id == user_id)` compares the id column against the raw `sub`
string; modelled as equality with the canonical string form of the id) and
mints a fresh pair. -/
def refresh_endpoint (st : Settings) (db : UserDb) (t : Jwt) (now : Nat) :
    Except HTTPError TokenPairResp :=
  match decode_token st t now with
  | .error _ => .error invalidRefreshError
  | .ok payload =>
    match verify_token_type payload "refresh" with
    | some _ => .error invalidRefreshError
    | none =>
      match db.find? (fun u => (some (uuidStr u.id) : Option String) == payload.sub) with
      | none => .error refreshUserError
      | some u =>
        if !u.is_active then .error refreshUserError
        else .ok (create_token_pair st (uuidStr u.id) u.email now)

/-! ### Request validation (`app/schemas/user.py:UserCreate`)

Pydantic first enforces `Field(min_length=8, max_length=100)` on the
password, then runs the `validate_password` field validator (at-least-8
again, one uppercase, one lowercase, one digit). Lengths are in characters.
The character classes model Python's `str.isupper` / `islower` / `isdigit`
on the ASCII range. The `EmailStr` check on the email field concerns the
email, not the password, and is modelled as accepting. -/

/-- Validation of the `UserCreate` body; `Except.error` is the 422 response
produced before the endpoint function (and hence any hashing or database
access) runs. -/
def validate_user_create (email : String) (full_name : Option String)
    (password : String) : Except String UserCreate :=
  if password.length < 8 then
    .error "String should have at least 8 characters"
  else if password.length > 100 then
    .error "String should have at most 100 characters"
  else if !(password.data.any Char.isUpper) then
    .error "Password must contain at least one uppercase letter"
  else if !(password.data.any Char.isLower) then
    .error "Password must contain at least one lowercase letter"
  else if !(password.data.any Char.isDigit) then
    .error "Password must contain at least one digit"
  else .ok ⟨email, full_name, password⟩

/-- Outcome of a raw HTTP request to the register route: a 422 validation
error, an `HTTPException` from the endpoint, or the created row serialised
through `response_model=UserResponse`. -/
inductive RegisterOutcome where
  | validationFailed (msg : String)
  | httpError (e : HTTPError)
  | created (db : UserDb) (resp : UserResponse)
deriving DecidableEq

/-- The full register route: request validation, then the endpoint, then
response serialisation. -/
def register_route (B : BcryptLib) (entropy : String) (newId : Nat)
    (now : Nat) (db : UserDb) (email : String) (full_name : Option String)
    (password : String) : RegisterOutcome :=
  match validate_user_create email full_name password with
  | .error m => .validationFailed m
  | .ok user_in =>
    match register B entropy newId now db user_in with
    | .error e => .httpError e
    | .ok (db2, u) => .created db2 (userResponseOf u)

/-- The password constraints of `UserCreate`, as a predicate. -/
def passwordOk (password : String) : Prop :=
  8 ≤ password.length ∧ password.length ≤ 100 ∧
  password.data.any Char.isUpper ∧ password.data.any Char.isLower ∧
  password.data.any Char.isDigit

instance (p : String) : Decidable (passwordOk p) := by
  unfold passwordOk; infer_instance

/-! ### A concrete instance of the bcrypt contract

A small concrete `BcryptLib` showing the contract is satisfiable; it is used
to instantiate the universally-quantified theorems below on concrete inputs.
Its digest ends in a character chosen in terms of the last input byte so that
no output can coincide with its own (truncated) preimage. -/

/-- The numeric value of a decimal digit character. -/
def digitVal (c : Char) : Nat := c.toNat - 48

/-- `'B'` for byte 65 (`'A'`), `'A'` for every other byte — no byte value is
mapped to its own character. -/
def flipChar (n : Nat) : Char := if n = 65 then 'B' else 'A'

/-- The 31-character digest of the concrete instance. -/
def toyDigest (b : List Nat) : String :=
  String.mk (List.replicate 30 'A' ++ [flipChar (b.getLastD 0)])

/-- The concrete hash: the documented modular-crypt format around
`toyDigest`. -/
def toyHashpw (b : List Nat) (s : BSalt) : String :=
  "$2b$" ++ twoDigits s.cost ++ "$" ++ s.chars ++ toyDigest b

/-- Recover the salt embedded in a hash string (cost digits at positions
4–5, salt characters at positions 7–28). -/
def toySaltOf (h : String) : BSalt :=
  ⟨digitVal (h.data.getD 4 'x') * 10 + digitVal (h.data.getD 5 'x'),
   String.mk ((h.data.drop 7).take 22)⟩

/-- The concrete check: rehash under the embedded salt and compare. -/
def toyCheckpw (b : List Nat) (h : String) : Bool :=
  h == toyHashpw b (toySaltOf h)

theorem toyHashpw_data (b : List Nat) (s : BSalt) :
    (toyHashpw b s).data =
      '$' :: '2' :: 'b' :: '$' :: Char.ofNat (48 + s.cost / 10) ::
        Char.ofNat (48 + s.cost % 10) :: '$' ::
        (s.chars.data ++
          (List.replicate 30 'A' ++ [flipChar (b.getLastD 0)])) := by
  simp [toyHashpw, String.data_append, toyDigest, twoDigits]

theorem toNat_ofNat_of_lt (n : Nat) (h : n < 128) : (Char.ofNat n).toNat = n := by
  have hv : n.isValidChar := Or.inl (by omega)
  simp [Char.ofNat, hv, Char.ofNatAux, Char.toNat, UInt32.toNat,
    BitVec.toNat_ofNatLt]

theorem toySaltOf_toyHashpw (b : List Nat) (s : BSalt) (hs : saltOk s) :
    toySaltOf (toyHashpw b s) = s := by
  obtain ⟨hc, hlen, _⟩ := hs
  have hlen' : s.chars.data.length = 22 := hlen
  have h10 : 48 + s.cost / 10 < 128 := by omega
  have h1 : 48 + s.cost % 10 < 128 := by
    have := Nat.mod_lt s.cost (show 0 < 10 by omega)
    omega
  cases s with
  | mk cost chars =>
    simp only [toySaltOf, toyHashpw_data, BSalt.mk.injEq]
    constructor
    · show digitVal (Char.ofNat (48 + cost / 10)) * 10 +
        digitVal (Char.ofNat (48 + cost % 10)) = cost
      simp only [digitVal]
      rw [toNat_ofNat_of_lt _ h10, toNat_ofNat_of_lt _ h1]
      show (48 + cost / 10 - 48) * 10 + (48 + cost % 10 - 48) = cost
      omega
    · show String.mk (List.take 22 (chars.data ++
        (List.replicate 30 'A' ++ [flipChar (b.getLastD 0)]))) = chars
      rw [← hlen', List.take_left]

theorem toyCheckpw_toyHashpw (b : List Nat) (s : BSalt) (hs : saltOk s) :
    toyCheckpw b (toyHashpw b s) = true := by
  simp [toyCheckpw, toySaltOf_toyHashpw b s hs]

theorem charUtf8_ascii (c : Char) (h : c.toNat < 128) : charUtf8 c = [c.toNat] := by
  simp [charUtf8, h]

theorem utf8_ascii_flat (l : List Char) (h : ∀ c ∈ l, c.toNat < 128) :
    (l.map charUtf8).flatten = l.map Char.toNat := by
  induction l with
  | nil => rfl
  | cons c t ih =>
    simp only [List.map_cons, List.flatten_cons]
    rw [charUtf8_ascii c (h c (List.mem_cons_self c t)),
      ih (fun x hx => h x (List.mem_cons_of_mem c hx))]
    rfl

theorem utf8Bytes_ascii (s : String) (h : ∀ c ∈ s.data, c.toNat < 128) :
    utf8Bytes s = s.data.map Char.toNat := utf8_ascii_flat s.data h

theorem toyHashpw_ne_plain (p : String) (s : BSalt) (hs : saltOk s) :
    toyHashpw ((utf8Bytes p).take 72) s ≠ p := by
  intro heq
  obtain ⟨hc, hlen, hascii⟩ := hs
  have hlen' : s.chars.data.length = 22 := hlen
  have hdata : '$' :: '2' :: 'b' :: '$' :: Char.ofNat (48 + s.cost / 10) ::
      Char.ofNat (48 + s.cost % 10) :: '$' ::
      (s.chars.data ++ (List.replicate 30 'A' ++
        [flipChar (((utf8Bytes p).take 72).getLastD 0)])) = p.data := by
    rw [← toyHashpw_data]
    exact congrArg String.data heq
  have h10 : 48 + s.cost / 10 < 128 := by omega
  have h1 : 48 + s.cost % 10 < 128 := by
    have := Nat.mod_lt s.cost (show 0 < 10 by omega)
    omega
  have hflip : ∀ n, (flipChar n).toNat < 128 := by
    intro n
    unfold flipChar
    split <;> decide
  have hpascii : ∀ c ∈ p.data, c.toNat < 128 := by
    intro c hcmem
    rw [← hdata] at hcmem
    simp only [List.mem_cons, List.mem_append, List.mem_replicate,
      List.not_mem_nil, or_false] at hcmem
    rcases hcmem with h | h | h | h | h | h | h | h | h | h
    · rw [h]; decide
    · rw [h]; decide
    · rw [h]; decide
    · rw [h]; decide
    · rw [h, toNat_ofNat_of_lt _ h10]; exact h10
    · rw [h, toNat_ofNat_of_lt _ h1]; exact h1
    · rw [h]; decide
    · exact hascii c h
    · rw [h.2]; decide
    · rw [h]; exact hflip _
  have hplen : p.data.length = 60 := by
    rw [← hdata]
    simp only [List.length_cons, List.length_append, List.length_replicate,
      List.length_nil, hlen']
  have hutf : utf8Bytes p = p.data.map Char.toNat := utf8Bytes_ascii p hpascii
  have hb2 : (utf8Bytes p).take 72 = p.data.map Char.toNat := by
    rw [hutf, List.take_of_length_le]
    rw [List.length_map, hplen]
    omega
  have hlast : ((utf8Bytes p).take 72).getLastD 0 =
      (flipChar (((utf8Bytes p).take 72).getLastD 0)).toNat := by
    conv_lhs => rw [hb2, ← hdata]
    simp only [List.map_cons, List.map_append, List.map_replicate,
      List.map_nil, List.getLastD_cons]
    rw [← List.append_assoc]
    exact List.getLastD_concat _ _ _
  revert hlast
  generalize ((utf8Bytes p).take 72).getLastD 0 = y
  intro hlast
  by_cases h65 : y = 65
  · rw [h65] at hlast
    simp [flipChar] at hlast
  · rw [flipChar, if_neg h65] at hlast
    exact h65 (by simpa using hlast)

/-- The concrete bcrypt instance. -/
def toyBcrypt : BcryptLib where
  digest := fun b _ => toyDigest b
  hashpw := toyHashpw
  checkpw := toyCheckpw
  hashpw_format := fun _ _ _ => rfl
  checkpw_hashpw := toyCheckpw_toyHashpw
  hashpw_ne_plain := toyHashpw_ne_plain

/-! ## The claims -/

/-- C1: for every password `p`, `verify(p, hash(p))` returns true; moreover,
since both `get_password_hash` and `verify_password` truncate their input to
the first 72 bytes of its UTF-8 encoding, `verify(p2, hash(p1))` returns true
for every pair of passwords whose UTF-8 encodings agree on their first 72
bytes. Stated for every bcrypt implementation satisfying the documented
contract and every well-formed salt drawn by `gensalt`. -/
theorem C1_hash_verify_truncation (B : BcryptLib) (entropy : String)
    (p1 p2 : String) (hsalt : saltOk (bcrypt_gensalt entropy))
    (h72 : (utf8Bytes p1).take 72 = (utf8Bytes p2).take 72) :
    verify_password B p2 (get_password_hash B entropy p1) = true := by
  rw [verify_password, get_password_hash, ← h72]
  exact B.checkpw_hashpw _ _ hsalt

/-- Witness for C1 at the concrete bcrypt instance: two distinct passwords
agreeing on their first 72 UTF-8 bytes (73×`a` and 72×`a` followed by `b`)
verify against each other's hash. -/
theorem C1_hash_verify_truncation_witness :
    saltOk (bcrypt_gensalt (String.mk (List.replicate 22 'a'))) ∧
    String.mk (List.replicate 73 'a') ≠
      String.mk (List.replicate 72 'a' ++ ['b']) ∧
    verify_password toyBcrypt (String.mk (List.replicate 72 'a' ++ ['b']))
      (get_password_hash toyBcrypt (String.mk (List.replicate 22 'a'))
        (String.mk (List.replicate 73 'a'))) = true :=
  ⟨by decide, by decide,
    C1_hash_verify_truncation toyBcrypt _ _ _ (by decide) (by decide)⟩

/-- C2: a token decoded immediately after issuance succeeds and carries
`sub` equal to the `user_id` given at issuance, `email` equal to the email
given at issuance for access tokens and no email claim for refresh tokens,
and `type` `"access"` resp. `"refresh"`. -/
theorem C2_issue_then_decode (st : Settings) (user_id email : String)
    (now : Nat) :
    decode_token st (create_token_pair st user_id email now).access_token now =
      .ok ⟨some user_id, some email,
        now + st.ACCESS_TOKEN_EXPIRE_MINUTES * 60, now, some "access"⟩ ∧
    decode_token st (create_token_pair st user_id email now).refresh_token now =
      .ok ⟨some user_id, none,
        now + st.REFRESH_TOKEN_EXPIRE_DAYS * 86400, now, some "refresh"⟩ := by
  constructor <;>
    simp [decode_token, jose_decode, create_token_pair, create_access_token,
      create_refresh_token, jwt_encode]

/-- C3: `decode_token` fails (with the single invalid-credentials rejection)
if and only if the token is malformed, signed under a different key, or
expired (`now > exp`); it never inspects the `type` claim; and
`verify_token_type` fails if and only if the payload's `type` differs from
the expected one. -/
theorem C3_decode_iff_and_type_check (st : Settings) :
    (∀ t now, (∃ e, decode_token st t now = .error e) ↔
      (match t with
       | .malformed _ => True
       | .signed p k => k ≠ st.SECRET_KEY ∨ now > p.exp)) ∧
    (∀ t now e, decode_token st t now = .error e → e = credentialsError) ∧
    (∀ p k now ty,
      (∃ q, decode_token st (.signed p k) now = .ok q) ↔
      (∃ q, decode_token st
        (.signed ⟨p.sub, p.email, p.exp, p.iat, ty⟩ k) now = .ok q)) ∧
    (∀ p expected,
      (∃ e, verify_token_type p expected = some e) ↔ p.type ≠ some expected) := by
  refine ⟨?_, ?_, ?_, ?_⟩
  · intro t now
    match t with
    | .malformed r => simp [decode_token, jose_decode]
    | .signed p k =>
      by_cases hk : k = st.SECRET_KEY <;>
        by_cases he : now > p.exp <;>
        simp [decode_token, jose_decode, hk, he]
  · intro t now e h
    match t with
    | .malformed r => exact (by simpa [decode_token, jose_decode] using h :
        credentialsError = e).symm
    | .signed p k =>
      by_cases hk : k = st.SECRET_KEY <;>
        by_cases he : now > p.exp <;>
        simp_all [decode_token, jose_decode]
  · intro p k now ty
    by_cases hk : k = st.SECRET_KEY <;>
      by_cases he : now > p.exp <;>
      simp [decode_token, jose_decode, hk, he]
  · intro p expected
    by_cases ht : p.type = some expected <;> simp [verify_token_type, ht]

/-- Witness for C3: the equivalences instantiated at a malformed token and
at a refresh-typed payload checked against `"access"`. -/
theorem C3_decode_iff_and_type_check_witness :
    (∃ e, decode_token ⟨"k", 30, 7, 12⟩ (.malformed "x") 0 = .error e) ∧
    (∃ e, verify_token_type ⟨none, none, 0, 0, some "refresh"⟩ "access" =
      some e) :=
  ⟨((C3_decode_iff_and_type_check ⟨"k", 30, 7, 12⟩).1 (.malformed "x") 0).mpr
      trivial,
   ((C3_decode_iff_and_type_check ⟨"k", 30, 7, 12⟩).2.2.2
      ⟨none, none, 0, 0, some "refresh"⟩ "access").mpr (by decide)⟩

/-! Shared concrete sample values for witnesses. -/

/-- Sample settings (source defaults, with a concrete secret). -/
def exSettings : Settings := ⟨"secret", 30, 7, 12⟩

/-- The canonical string form of UUID value 5. -/
def exUuidStr : String := "00000000-0000-0000-0000-000000000005"

/-- A sample active user row with id 5. -/
def exUser : User := ⟨5, "alice@example.com", none, "storedhash", true, false,
  0, 0, none⟩

theorem parseUUID_exUuidStr : parseUUID exUuidStr = some 5 := by
  simp [parseUUID, exUuidStr, removeAll, stripBraces, matchesAt, isHexDigit,
    hexVal]

theorem parseUUID_zz : parseUUID "zz" = none := by
  simp [parseUUID, removeAll, stripBraces, matchesAt]

/-- C4 counterexample: under the source, a validly signed, unexpired access
token whose `sub` (here `"zz"`) is not a well-formed UUID is rejected with
`401 "Could not validate credentials"` and no response headers, while an
invalid token is rejected with the same status and detail but with the
`WWW-Authenticate: Bearer` header — the two rejections are not exactly the
same, contradicting the claim. -/
theorem C4_rejections_not_identical :
    get_current_user exSettings []
        (.signed ⟨some "zz", none, 100, 0, some "access"⟩ "secret") 0 =
      .error (.http ⟨401, "Could not validate credentials", []⟩) ∧
    get_current_user exSettings [] (.malformed "m") 0 =
      .error (.http credentialsError) ∧
    PyFailure.http (⟨401, "Could not validate credentials", []⟩ : HTTPError) ≠
      PyFailure.http credentialsError := by
  refine ⟨?_, ?_, by decide⟩
  · simp [get_current_user, decode_token, jose_decode, verify_token_type,
      exSettings, parseUUID_zz]
  · simp [get_current_user, decode_token, jose_decode, exSettings]

/-- C4 (amended): for a validly signed, unexpired token with type
`"access"`: a `sub` claim that is present but not a well-formed UUID is
rejected with the same 401 status and `"Could not validate credentials"`
detail as an invalid token — the two rejections differ only in that the
invalid-token one carries the `WWW-Authenticate: Bearer` header; a parsed
`sub` with no matching user row is rejected with `404 "User not found"`; a
matching but deactivated user is rejected with `403 "Inactive user"` even
though the token is still valid, because the user row is re-fetched on
every call; otherwise the user's identity is returned. -/
theorem C4_resolver_behaviour (st : Settings) (db : UserDb) (p : JwtPayload)
    (now : Nat) (htype : p.type = some "access") (hexp : now ≤ p.exp) :
    (∀ s, p.sub = some s → parseUUID s = none →
      get_current_user st db (.signed p st.SECRET_KEY) now =
        .error (.http ⟨401, "Could not validate credentials", []⟩)) ∧
    (∀ r, get_current_user st db (.malformed r) now =
      .error (.http credentialsError)) ∧
    credentialsError =
      ⟨401, "Could not validate credentials",
        [("WWW-Authenticate", "Bearer")]⟩ ∧
    (∀ s uid, p.sub = some s → parseUUID s = some uid →
      db.find? (fun u => u.id == uid) = none →
      get_current_user st db (.signed p st.SECRET_KEY) now =
        .error (.http ⟨404, "User not found", []⟩)) ∧
    (∀ s uid u, p.sub = some s → parseUUID s = some uid →
      db.find? (fun u => u.id == uid) = some u → u.is_active = false →
      get_current_user st db (.signed p st.SECRET_KEY) now =
        .error (.http ⟨403, "Inactive user", []⟩)) ∧
    (∀ s uid u, p.sub = some s → parseUUID s = some uid →
      db.find? (fun u => u.id == uid) = some u → u.is_active = true →
      get_current_user st db (.signed p st.SECRET_KEY) now = .ok u) := by
  have hdec : decode_token st (.signed p st.SECRET_KEY) now = .ok p := by
    have hng : ¬now > p.exp := by omega
    simp [decode_token, jose_decode, hng]
  have hvt : verify_token_type p "access" = none := by
    simp [verify_token_type, htype]
  refine ⟨?_, ?_, rfl, ?_, ?_, ?_⟩
  · intro s hsub hparse
    simp [get_current_user, hdec, hvt, hsub, hparse]
  · intro r
    simp [get_current_user, decode_token, jose_decode]
  · intro s uid hsub hparse hfind
    simp [get_current_user, hdec, hvt, hsub, hparse, hfind]
  · intro s uid u hsub hparse hfind hact
    simp [get_current_user, hdec, hvt, hsub, hparse, hfind, hact]
  · intro s uid u hsub hparse hfind hact
    simp [get_current_user, hdec, hvt, hsub, hparse, hfind, hact]

/-- Witness for C4 (amended), at concrete inputs: the malformed-sub, user
missing, user inactive and success branches. -/
theorem C4_resolver_behaviour_witness :
    get_current_user exSettings [exUser]
        (.signed ⟨some "zz", none, 100, 0, some "access"⟩ "secret") 0 =
      .error (.http ⟨401, "Could not validate credentials", []⟩) ∧
    get_current_user exSettings []
        (.signed ⟨some exUuidStr, none, 100, 0, some "access"⟩ "secret") 0 =
      .error (.http ⟨404, "User not found", []⟩) ∧
    get_current_user exSettings [{ exUser with is_active := false }]
        (.signed ⟨some exUuidStr, none, 100, 0, some "access"⟩ "secret") 0 =
      .error (.http ⟨403, "Inactive user", []⟩) ∧
    get_current_user exSettings [exUser]
        (.signed ⟨some exUuidStr, none, 100, 0, some "access"⟩ "secret") 0 =
      .ok exUser := by
  refine ⟨?_, ?_, ?_, ?_⟩
  · exact (C4_resolver_behaviour exSettings [exUser]
        ⟨some "zz", none, 100, 0, some "access"⟩ 0 rfl (by decide)).1
      "zz" rfl parseUUID_zz
  · exact (C4_resolver_behaviour exSettings []
        ⟨some exUuidStr, none, 100, 0, some "access"⟩ 0 rfl (by decide)).2.2.2.1
      exUuidStr 5 rfl parseUUID_exUuidStr rfl
  · exact (C4_resolver_behaviour exSettings [{ exUser with is_active := false }]
        ⟨some exUuidStr, none, 100, 0, some "access"⟩ 0 rfl
        (by decide)).2.2.2.2.1
      exUuidStr 5 { exUser with is_active := false } rfl parseUUID_exUuidStr
      (by decide) rfl
  · exact (C4_resolver_behaviour exSettings [exUser]
        ⟨some exUuidStr, none, 100, 0, some "access"⟩ 0 rfl
        (by decide)).2.2.2.2.2
      exUuidStr 5 exUser rfl parseUUID_exUuidStr (by decide) rfl

/-- C5: a login with an email not present in storage and a login with a
present email but a non-verifying password produce the **same** error value
(`401 "Incorrect email or password"`), indistinguishable to the caller; a
present email with a verifying password but `is_active = false` fails with
`403 "Inactive user"`; on success the user's `last_login` is set to the
current time and an access+refresh token pair is returned. -/
theorem C5_login_behaviour (B : BcryptLib) (st : Settings) (db : UserDb)
    (email password : String) (now : Nat) :
    (db.find? (fun u => u.email == email) = none →
      login B st db email password now = .error incorrectCredentialsError) ∧
    (∀ u, db.find? (fun u => u.email == email) = some u →
      verify_password B password u.hashed_password = false →
      login B st db email password now = .error incorrectCredentialsError) ∧
    (∀ u, db.find? (fun u => u.email == email) = some u →
      verify_password B password u.hashed_password = true →
      u.is_active = false →
      login B st db email password now = .error inactiveUserError) ∧
    (∀ u, db.find? (fun u => u.email == email) = some u →
      verify_password B password u.hashed_password = true →
      u.is_active = true →
      login B st db email password now =
        .ok (updateFirst (fun v => v.email == email)
              (fun v => { v with last_login := some now }) db,
            create_token_pair st (uuidStr u.id) u.email now)) := by
  refine ⟨?_, ?_, ?_, ?_⟩
  · intro hfind
    simp [login, hfind]
  · intro u hfind hv
    simp [login, hfind, hv]
  · intro u hfind hv hact
    simp [login, hfind, hv, hact]
  · intro u hfind hv hact
    simp [login, hfind, hv, hact]

/-- Sample salt entropy (22 ASCII characters). -/
def exEntropy : String := String.mk (List.replicate 22 'a')

/-- The concrete instance's hash of `"Passw0rd!"`. -/
def exHashed : String := get_password_hash toyBcrypt exEntropy "Passw0rd!"

/-- A sample user whose stored hash is `exHashed`. -/
def exUserPw : User := ⟨5, "alice@example.com", none, exHashed, true, false,
  0, 0, none⟩

/-- Witness for C5, at concrete inputs on the concrete bcrypt instance:
unknown email and wrong password yield the same error value, an inactive
user is refused, and a correct login returns the token pair and stamps
`last_login`. -/
theorem C5_login_behaviour_witness :
    login toyBcrypt exSettings [] "alice@example.com" "Passw0rd!" 7 =
      .error incorrectCredentialsError ∧
    login toyBcrypt exSettings [exUserPw] "alice@example.com" "WrongPass1A" 7 =
      .error incorrectCredentialsError ∧
    login toyBcrypt exSettings [{ exUserPw with is_active := false }]
        "alice@example.com" "Passw0rd!" 7 = .error inactiveUserError ∧
    login toyBcrypt exSettings [exUserPw] "alice@example.com" "Passw0rd!" 7 =
      .ok (updateFirst (fun v => v.email == "alice@example.com")
            (fun v => { v with last_login := some 7 }) [exUserPw],
          create_token_pair exSettings (uuidStr exUserPw.id) exUserPw.email 7) := by
  refine ⟨?_, ?_, ?_, ?_⟩
  · exact (C5_login_behaviour toyBcrypt exSettings [] "alice@example.com"
      "Passw0rd!" 7).1 rfl
  · exact (C5_login_behaviour toyBcrypt exSettings [exUserPw]
      "alice@example.com" "WrongPass1A" 7).2.1 exUserPw (by decide) (by decide)
  · exact (C5_login_behaviour toyBcrypt exSettings
      [{ exUserPw with is_active := false }] "alice@example.com"
      "Passw0rd!" 7).2.2.1 { exUserPw with is_active := false } (by decide)
      (by decide) rfl
  · exact (C5_login_behaviour toyBcrypt exSettings [exUserPw]
      "alice@example.com" "Passw0rd!" 7).2.2.2 exUserPw (by decide)
      (by decide) rfl

/-- C6 counterexample: refresh called with a validly signed, unexpired
token of type `"access"` is rejected with the generic
`401 "Invalid refresh token"` — exactly the same rejection as a malformed
token, and distinct from the WrongTokenType rejection raised internally by
`verify_token_type` (which the endpoint's `except Exception` swallows). So
the rejection does not distinguish the wrong-type case. -/
theorem C6_wrong_type_not_distinguished :
    refresh_endpoint exSettings [exUser]
        ((create_token_pair exSettings exUuidStr "alice@example.com" 0).access_token)
        0 = .error invalidRefreshError ∧
    refresh_endpoint exSettings [exUser] (.malformed "m") 0 =
      .error invalidRefreshError ∧
    verify_token_type
        ⟨some exUuidStr, some "alice@example.com", 1800, 0, some "access"⟩
        "refresh" =
      some ⟨401, "Invalid token type. Expected refresh, got access",
        [("WWW-Authenticate", "Bearer")]⟩ ∧
    invalidRefreshError ≠
      ⟨401, "Invalid token type. Expected refresh, got access",
        [("WWW-Authenticate", "Bearer")]⟩ := by
  refine ⟨by decide, by decide, by decide, by decide⟩

/-- C6 (amended): refresh with a validly signed, unexpired access-type
token fails, but with the generic `401 "Invalid refresh token"` rejection —
identical to the rejection of a malformed token — because the endpoint's
`except Exception` catches the internal WrongTokenType `HTTPException` and
replaces it; the wrong-type case is not externally distinguished. -/
theorem C6_refresh_with_access_token (st : Settings) (db : UserDb)
    (user_id email : String) (now : Nat) (r : String) :
    refresh_endpoint st db
        ((create_token_pair st user_id email now).access_token) now =
      .error invalidRefreshError ∧
    refresh_endpoint st db (.malformed r) now = .error invalidRefreshError := by
  constructor
  · have hng : ¬now > now + st.ACCESS_TOKEN_EXPIRE_MINUTES * 60 := by omega
    simp [refresh_endpoint, create_token_pair, create_access_token,
      jwt_encode, decode_token, jose_decode, hng, verify_token_type]
  · simp [refresh_endpoint, decode_token, jose_decode]

/-- C7: register fails with `400 "Email already registered"` exactly when a
row with the same email (exact, case-sensitive string equality) is present
in storage; otherwise it persists a new record whose `hashed_password` is
the Password Hasher's output for the given password and whose `is_active`
flag is true, and returns that record. -/
theorem C7_register_behaviour (B : BcryptLib) (entropy : String)
    (newId now : Nat) (db : UserDb) (user_in : UserCreate) :
    (register B entropy newId now db user_in = .error emailTakenError ↔
      ∃ u ∈ db, u.email = user_in.email) ∧
    ((∀ u ∈ db, u.email ≠ user_in.email) →
      register B entropy newId now db user_in =
        .ok (db ++ [⟨newId, user_in.email, user_in.full_name,
              get_password_hash B entropy user_in.password, true, false,
              now, now, none⟩],
            ⟨newId, user_in.email, user_in.full_name,
              get_password_hash B entropy user_in.password, true, false,
              now, now, none⟩)) := by
  have hiff : (db.find? (fun u => u.email == user_in.email)).isSome ↔
      ∃ u ∈ db, u.email = user_in.email := by
    simp [List.find?_isSome]
  constructor
  · rw [← hiff]
    cases hfind : db.find? (fun u => u.email == user_in.email) with
    | none => simp [register, hfind]
    | some u => simp [register, hfind]
  · intro hall
    have hfind : db.find? (fun u => u.email == user_in.email) = none :=
      List.find?_eq_none.mpr (fun u hu => by simpa using hall u hu)
    simp [register, hfind]

/-- Witness for C7: registering `alice@example.com` into an empty store
succeeds with an active row carrying the bcrypt hash; registering the same
email again fails with the EmailTaken rejection. -/
theorem C7_register_behaviour_witness :
    register toyBcrypt exEntropy 5 0 [] ⟨"alice@example.com", none, "Passw0rd!"⟩ =
      .ok ([⟨5, "alice@example.com", none,
            get_password_hash toyBcrypt exEntropy "Passw0rd!", true, false,
            0, 0, none⟩],
          ⟨5, "alice@example.com", none,
            get_password_hash toyBcrypt exEntropy "Passw0rd!", true, false,
            0, 0, none⟩) ∧
    register toyBcrypt exEntropy 9 3 [exUser]
        ⟨"alice@example.com", none, "Passw0rd!"⟩ = .error emailTakenError := by
  constructor
  · simpa using (C7_register_behaviour toyBcrypt exEntropy 5 0 []
      ⟨"alice@example.com", none, "Passw0rd!"⟩).2 (by simp)
  · exact (C7_register_behaviour toyBcrypt exEntropy 9 3 [exUser]
      ⟨"alice@example.com", none, "Passw0rd!"⟩).1.mpr
      ⟨exUser, by simp, by decide⟩

/-- The two cost characters embedded in a modular-crypt hash string
(positions 4–5, after the `"$2b$"` prefix). -/
def hashCostDigits (h : String) : String :=
  String.mk ((h.data.drop 4).take 2)

theorem hashCostDigits_format (c : Nat) (chars d : String) :
    hashCostDigits ("$2b$" ++ twoDigits c ++ "$" ++ chars ++ d) =
      twoDigits c := rfl

/-- C8: the cost embedded in every hash `get_password_hash` produces is 12 —
the default of the `bcrypt.gensalt()` call, which passes no `rounds`
argument — independent of the `Settings`; in particular, under a
configuration with `BCRYPT_ROUNDS = 13` the embedded cost differs from the
configured cost factor, contradicting the claim that the configured value
is used. -/
theorem C8_cost_ignores_configuration (B : BcryptLib) (entropy p : String)
    (st : Settings) (hsalt : saltOk (bcrypt_gensalt entropy)) :
    hashCostDigits (get_password_hash B entropy p) = "12" ∧
    (st.BCRYPT_ROUNDS = 13 →
      twoDigits st.BCRYPT_ROUNDS ≠
        hashCostDigits (get_password_hash B entropy p)) := by
  have hfmt := B.hashpw_format ((utf8Bytes p).take 72) (bcrypt_gensalt entropy)
    hsalt
  have h12 : hashCostDigits (get_password_hash B entropy p) = "12" := by
    rw [get_password_hash, hfmt, hashCostDigits_format]
    show twoDigits 12 = "12"
    decide
  refine ⟨h12, fun h13 => ?_⟩
  rw [h12, h13]
  decide

/-- Witness for C8 at the concrete bcrypt instance and a configuration with
`BCRYPT_ROUNDS = 13`. -/
theorem C8_cost_ignores_configuration_witness :
    hashCostDigits (get_password_hash toyBcrypt exEntropy "Passw0rd!") = "12" ∧
    twoDigits (Settings.BCRYPT_ROUNDS ⟨"secret", 30, 7, 13⟩) ≠
      hashCostDigits (get_password_hash toyBcrypt exEntropy "Passw0rd!") :=
  ⟨(C8_cost_ignores_configuration toyBcrypt exEntropy "Passw0rd!"
      ⟨"secret", 30, 7, 13⟩ (by decide)).1,
   (C8_cost_ignores_configuration toyBcrypt exEntropy "Passw0rd!"
      ⟨"secret", 30, 7, 13⟩ (by decide)).2 rfl⟩

/-- C9: the hash `get_password_hash` produces is never the plaintext
password itself, and the `UserResponse` schema through which both register
and identity resolution serialise a user carries no password-hash field —
serialisation is invariant under any change of the stored hash. -/
theorem C9_hash_not_plain_not_exposed (B : BcryptLib) (entropy p : String)
    (hsalt : saltOk (bcrypt_gensalt entropy)) :
    get_password_hash B entropy p ≠ p ∧
    (∀ u h, userResponseOf { u with hashed_password := h } =
      userResponseOf u) :=
  ⟨B.hashpw_ne_plain p _ hsalt, fun _ _ => rfl⟩

/-- Witness for C9 at the concrete bcrypt instance. -/
theorem C9_hash_not_plain_not_exposed_witness :
    get_password_hash toyBcrypt exEntropy "Passw0rd!" ≠ "Passw0rd!" ∧
    userResponseOf { exUser with hashed_password := "other" } =
      userResponseOf exUser :=
  ⟨(C9_hash_not_plain_not_exposed toyBcrypt exEntropy "Passw0rd!"
      (by decide)).1,
   (C9_hash_not_plain_not_exposed toyBcrypt exEntropy "Passw0rd!"
      (by decide)).2 exUser "other"⟩

theorem validate_user_create_of_ok (email : String) (fn : Option String)
    (pw : String) (h : passwordOk pw) :
    validate_user_create email fn pw = .ok ⟨email, fn, pw⟩ := by
  obtain ⟨h8, h100, hu, hl, hd⟩ := h
  have e1 : ¬pw.length < 8 := by omega
  have e2 : ¬pw.length > 100 := by omega
  simp [validate_user_create, e1, e2, hu, hl, hd]

theorem validate_user_create_of_bad (email : String) (fn : Option String)
    (pw : String) (h : ¬passwordOk pw) :
    ∃ m, validate_user_create email fn pw = .error m := by
  unfold validate_user_create
  by_cases c1 : pw.length < 8
  · exact ⟨_, by rw [if_pos c1]⟩
  · rw [if_neg c1]
    by_cases c2 : pw.length > 100
    · exact ⟨_, by rw [if_pos c2]⟩
    · rw [if_neg c2]
      by_cases c3 : pw.data.any Char.isUpper
      · rw [if_neg (by simp [c3])]
        by_cases c4 : pw.data.any Char.isLower
        · rw [if_neg (by simp [c4])]
          by_cases c5 : pw.data.any Char.isDigit
          · exact absurd ⟨by omega, by omega, c3, c4, c5⟩ h
          · exact ⟨_, by rw [if_pos (by simp [c5])]⟩
        · exact ⟨_, by rw [if_pos (by simp [c4])]⟩
      · exact ⟨_, by rw [if_pos (by simp [c3])]⟩

/-- C10: the register route rejects the request at validation time — before
any hashing or storage access — exactly when the password is shorter than
8 characters, longer than 100 characters, or lacks an uppercase letter, a
lowercase letter or a digit; a request that results in a stored row
necessarily had a password satisfying all the constraints, and the row
stores the Password Hasher's output for it. -/
theorem C10_password_validation_gate (B : BcryptLib) (entropy : String)
    (newId now : Nat) (db : UserDb) (email : String)
    (full_name : Option String) (password : String) :
    ((∃ m, register_route B entropy newId now db email full_name password =
        .validationFailed m) ↔ ¬passwordOk password) ∧
    (∀ db2 resp,
      register_route B entropy newId now db email full_name password =
        .created db2 resp →
      passwordOk password ∧
      db2 = db ++ [⟨newId, email, full_name,
        get_password_hash B entropy password, true, false, now, now, none⟩]) := by
  by_cases hok : passwordOk password
  · have hval := validate_user_create_of_ok email full_name password hok
    constructor
    · refine iff_of_false ?_ (not_not_intro hok)
      rintro ⟨m, hm⟩
      simp only [register_route, hval] at hm
      cases hreg : register B entropy newId now db ⟨email, full_name, password⟩ with
      | error e => rw [hreg] at hm; simp at hm
      | ok pr =>
        obtain ⟨db2, u⟩ := pr
        rw [hreg] at hm
        simp at hm
    · intro db2 resp h
      simp only [register_route, hval] at h
      cases hfind : db.find? (fun u => u.email == email) with
      | some u =>
        have hreg : register B entropy newId now db ⟨email, full_name, password⟩ =
            .error emailTakenError := by
          simp [register, hfind]
        rw [hreg] at h
        simp at h
      | none =>
        have hreg : register B entropy newId now db ⟨email, full_name, password⟩ =
            .ok (db ++ [⟨newId, email, full_name,
              get_password_hash B entropy password, true, false, now, now,
              none⟩],
              ⟨newId, email, full_name, get_password_hash B entropy password,
                true, false, now, now, none⟩) := by
          simp [register, hfind]
        rw [hreg] at h
        simp only [RegisterOutcome.created.injEq] at h
        exact ⟨hok, h.1.symm⟩
  · obtain ⟨m, hval⟩ := validate_user_create_of_bad email full_name password hok
    constructor
    · exact iff_of_true ⟨m, by simp only [register_route, hval]⟩ hok
    · intro db2 resp h
      simp only [register_route, hval] at h
      simp at h

/-- Witness for C10: a password failing the constraints is rejected at
validation, and a compliant registration stores the hasher's output. -/
theorem C10_password_validation_gate_witness :
    (∃ m, register_route toyBcrypt exEntropy 5 0 [] "a@b" none "short" =
      .validationFailed m) ∧
    (passwordOk "Passw0rd!" ∧
      ([⟨5, "a@b", none, get_password_hash toyBcrypt exEntropy "Passw0rd!",
          true, false, 0, 0, none⟩] : UserDb) =
        [] ++ [⟨5, "a@b", none,
          get_password_hash toyBcrypt exEntropy "Passw0rd!", true, false,
          0, 0, none⟩]) :=
  ⟨(C10_password_validation_gate toyBcrypt exEntropy 5 0 [] "a@b" none
      "short").1.mpr (by decide),
   (C10_password_validation_gate toyBcrypt exEntropy 5 0 [] "a@b" none
      "Passw0rd!").2
     [⟨5, "a@b", none, get_password_hash toyBcrypt exEntropy "Passw0rd!",
        true, false, 0, 0, none⟩]
     (userResponseOf ⟨5, "a@b", none,
        get_password_hash toyBcrypt exEntropy "Passw0rd!", true, false,
        0, 0, none⟩)
     (by decide)⟩

end AuthCore
